import Mathlib

/-!
Verification of the circular-camera preview pipeline (`src/main.py`,
class `CircularCamera`) against its natural-language specification.

Images are shallowly embedded as dimensions together with a total pixel
function; stateful tick processing (`update_frame`) is embedded as an
explicit state-transition function; external inputs (captured frames,
segmentation outcomes, the wall clock) are parameters of each tick.
Pixel channel values are natural numbers (8-bit values live in 0..255);
the floating-point values that the numpy mask view yields are modelled
as rationals.
-/

namespace LoomLess

/-- A single-channel or multi-channel image: height, width and a total
pixel function (reads outside the stored region are irrelevant to the
embedded operations, which only sample in range or via border reflection). -/
structure Img (α : Type) where
  h : Nat
  w : Nat
  px : Nat → Nat → α

/-- A 3-channel pixel in OpenCV's BGR channel order, as `cap.read` yields. -/
structure BGR where
  b : Nat
  g : Nat
  r : Nat
deriving DecidableEq

/-- A 4-channel RGBA pixel, as packed for `QImage.Format_RGBA8888`. -/
structure RGBA where
  r : Nat
  g : Nat
  b : Nat
  a : Nat
deriving DecidableEq

/-- A 3-channel RGB pixel, as packed for `QImage.Format_RGB888`. -/
structure RGB where
  r : Nat
  g : Nat
  b : Nat
deriving DecidableEq

/-- Embedding of `cv2.cvtColor(frame, cv2.COLOR_BGR2RGBA)`: reorder
channels and add an opaque alpha channel. -/
def cvtBGR2RGBA (f : Img BGR) : Img RGBA :=
  ⟨f.h, f.w, fun y x => ⟨(f.px y x).r, (f.px y x).g, (f.px y x).b, 255⟩⟩

/-- Embedding of `cv2.cvtColor(frame, cv2.COLOR_BGR2RGB)`: reorder channels. -/
def cvtBGR2RGB (f : Img BGR) : Img RGB :=
  ⟨f.h, f.w, fun y x => ⟨(f.px y x).r, (f.px y x).g, (f.px y x).b⟩⟩

/-- Embedding of `frame_rgba[:, :, 3] = mask`: overwrite the alpha channel
of an RGBA image with the 8-bit mask values. -/
def setAlpha (f : Img RGBA) (mask : Img Nat) : Img RGBA :=
  ⟨f.h, f.w, fun y x =>
    ⟨(f.px y x).r, (f.px y x).g, (f.px y x).b, mask.px y x⟩⟩

/-- The masked compositing path of `update_frame` (src/main.py lines
110 and 139): convert the BGR frame to RGBA, then overwrite the alpha
channel with the refined mask.  The color channels are not touched. -/
def composeWithMask (frame : Img BGR) (mask : Img Nat) : Img RGBA :=
  setAlpha (cvtBGR2RGBA frame) mask

/-- The no-mask compositing path of `update_frame` (src/main.py lines
150-155): convert the BGR frame to an opaque RGB buffer. -/
def composeNoMask (frame : Img BGR) : Img RGB :=
  cvtBGR2RGB frame

/-- Modelled from the spec (§4.4, not present in src): premultiplication of
a color channel `c` by an 8-bit alpha `a`, `round(c * (a/255))`,
with round-half-up realised over naturals as `(2*c*a + 255) / 510`. -/
def specPremultiply (c a : Nat) : Nat :=
  (2 * c * a + 255) / 510

/-! ### Frame Normalizer (src/main.py lines 82-93) -/

/-- Embedding of `cv2.flip(frame, 1)`: horizontal mirror. -/
def hflip {α : Type} (f : Img α) : Img α :=
  ⟨f.h, f.w, fun y x => f.px y (f.w - 1 - x)⟩

/-- Embedding of the center crop (src/main.py lines 86-90):
`min_dim = min(h, w)`, `start_x = (w - min_dim) // 2`,
`start_y = (h - min_dim) // 2`, then take the `min_dim × min_dim`
sub-image at that origin. -/
def cropSquare {α : Type} (f : Img α) : Img α :=
  ⟨min f.h f.w, min f.h f.w, fun y x =>
    f.px ((f.h - min f.h f.w) / 2 + y) ((f.w - min f.h f.w) / 2 + x)⟩

/-- Embedding of `cv2.resize(frame, (size, size))`.  The resampler's
interpolation arithmetic is external library code; it is modelled by
index-scaled sampling, which is exact about the output dimensions (the
only facet any claim touches). -/
def resize {α : Type} (f : Img α) (size : Nat) : Img α :=
  ⟨size, size, fun y x => f.px (y * f.h / size) (x * f.w / size)⟩

/-- The frame-normalization stage of `update_frame`: mirror, center-crop
to square, resize to the configured window size, in that order. -/
def normalize {α : Type} (raw : Img α) (size : Nat) : Img α :=
  resize (cropSquare (hflip raw)) size

/-! ### Mask Refiner (src/main.py lines 107-137)

The code configures the segmenter with `output_category_mask=True`
(line 38) and refines `result.category_mask.numpy_view()` by binarizing
at 0.5 and applying `cv2.GaussianBlur(mask, (5, 5), 0)`. -/

/-- Configuration constant from `vision.ImageSegmenterOptions` in
`__init__` (src/main.py line 38): the segmenter produces a category
mask, not confidence maps. -/
def outputCategoryMask : Bool := true

/-- Border index handling of OpenCV's default `BORDER_REFLECT_101`:
reflect across the edge pixel without repeating it. -/
def reflect101 (n : Nat) (i : Int) : Nat :=
  if i < 0 then (-i).toNat
  else if (n : Int) ≤ i then 2 * (n - 1) - i.toNat
  else i.toNat

/-- Embedding of `(category_mask <= 0.5).astype(np.uint8) * 255`
(src/main.py line 134): pixels with value at most 0.5 become 255,
all others become 0. -/
def binarizeLE (cm : Img ℚ) : Img Nat :=
  ⟨cm.h, cm.w, fun y x => if cm.px y x ≤ 1 / 2 then 255 else 0⟩

/-- Kernel of `cv2.GaussianBlur(_, (5, 5), 0)`: with sigma 0 and size 5,
OpenCV uses the fixed separable kernel `[1, 4, 6, 4, 1] / 16`; the 2D
kernel is its outer product over total weight 256.  Each entry is
`(dy, dx, weight)`. -/
def kernel5 : List (Nat × Nat × Nat) :=
  [(0, 0, 1), (0, 1, 4), (0, 2, 6), (0, 3, 4), (0, 4, 1),
   (1, 0, 4), (1, 1, 16), (1, 2, 24), (1, 3, 16), (1, 4, 4),
   (2, 0, 6), (2, 1, 24), (2, 2, 36), (2, 3, 24), (2, 4, 6),
   (3, 0, 4), (3, 1, 16), (3, 2, 24), (3, 3, 16), (3, 4, 4),
   (4, 0, 1), (4, 1, 4), (4, 2, 6), (4, 3, 4), (4, 4, 1)]

/-- Embedding of `cv2.GaussianBlur(mask, (5, 5), 0)` on an 8-bit image:
weighted neighborhood sum with reflected borders, fixed-point rounding
(add half the total weight, then divide). -/
def gaussianBlur5 (img : Img Nat) : Img Nat :=
  ⟨img.h, img.w, fun y x =>
    (kernel5.foldl (fun acc e =>
      acc + e.2.2 * img.px (reflect101 img.h ((y : Int) + e.1 - 2))
                           (reflect101 img.w ((x : Int) + e.2.1 - 2))) 0
      + 128) / 256⟩

/-- The mask-refinement stage of `update_frame` (src/main.py lines
134-137): binarize the category mask at 0.5 (subject is class 0), then
smooth with the 5×5 Gaussian blur. -/
def refineMask (category_mask : Img ℚ) : Img Nat :=
  gaussianBlur5 (binarizeLE category_mask)

/-! ### Confidence-map refinement pipeline described by the spec

The spec (§4.3) describes a second refine pipeline operating on
confidence maps.  No such code exists in src; the definitions below are
modelled from the spec's words so they can be compared with the
category pipeline the source actually implements. -/

/-- Modelled from the spec (§4.3 step 1, not present in src): scale
subject-channel floating-point confidences to 8-bit, `round(v*255)`. -/
def specScale8 (cm : Img ℚ) : Img Nat :=
  ⟨cm.h, cm.w, fun y x => ⌊cm.px y x * 255 + 1 / 2⌋.toNat⟩

/-- Modelled from the spec (§4.3 step 2, not present in src): binary
threshold at the midpoint 128. -/
def specThreshold128 (m : Img Nat) : Img Nat :=
  ⟨m.h, m.w, fun y x => if 128 ≤ m.px y x then 255 else 0⟩

/-- Offsets of a 3×3 round (cross-shaped) structuring element. -/
def se3 : List (Int × Int) :=
  [(-1, 0), (0, -1), (0, 0), (0, 1), (1, 0)]

/-- Offsets of a 5×5 round structuring element. -/
def se5 : List (Int × Int) :=
  [(-2, 0), (-1, -2), (-1, -1), (-1, 0), (-1, 1), (-1, 2),
   (0, -2), (0, -1), (0, 0), (0, 1), (0, 2),
   (1, -2), (1, -1), (1, 0), (1, 1), (1, 2), (2, 0)]

/-- Modelled from the spec (not present in src): erosion of an 8-bit
image by a structuring element, the neighborhood minimum. -/
def specErode (se : List (Int × Int)) (m : Img Nat) : Img Nat :=
  ⟨m.h, m.w, fun y x =>
    se.foldl (fun acc d =>
      min acc (m.px (reflect101 m.h ((y : Int) + d.1))
                    (reflect101 m.w ((x : Int) + d.2)))) 255⟩

/-- Modelled from the spec (not present in src): dilation of an 8-bit
image by a structuring element, the neighborhood maximum. -/
def specDilate (se : List (Int × Int)) (m : Img Nat) : Img Nat :=
  ⟨m.h, m.w, fun y x =>
    se.foldl (fun acc d =>
      max acc (m.px (reflect101 m.h ((y : Int) + d.1))
                    (reflect101 m.w ((x : Int) + d.2)))) 0⟩

/-- Modelled from the spec (§4.3 step 4, not present in src):
morphological close with the 5×5 round element - dilate, then erode. -/
def specClose5 (m : Img Nat) : Img Nat :=
  specErode se5 (specDilate se5 m)

/-- Kernel of the spec's 11×11 sigma-3 Gaussian blur: the outer product
of the 11-tap integer weight row `[25, 41, 61, 80, 95, 100, 95, 80, 61,
41, 25]` (sampled as `round(100 * exp(-k^2/18))` for offsets
`k = -5..5`) with itself; total weight `704 * 704 = 495616`. -/
def kernel11 : List (Nat × Nat × Nat) :=
  [(0, 0, 625), (0, 1, 1025), (0, 2, 1525), (0, 3, 2000), (0, 4, 2375), (0, 5, 2500), (0, 6, 2375), (0, 7, 2000), (0, 8, 1525), (0, 9, 1025), (0, 10, 625),
   (1, 0, 1025), (1, 1, 1681), (1, 2, 2501), (1, 3, 3280), (1, 4, 3895), (1, 5, 4100), (1, 6, 3895), (1, 7, 3280), (1, 8, 2501), (1, 9, 1681), (1, 10, 1025),
   (2, 0, 1525), (2, 1, 2501), (2, 2, 3721), (2, 3, 4880), (2, 4, 5795), (2, 5, 6100), (2, 6, 5795), (2, 7, 4880), (2, 8, 3721), (2, 9, 2501), (2, 10, 1525),
   (3, 0, 2000), (3, 1, 3280), (3, 2, 4880), (3, 3, 6400), (3, 4, 7600), (3, 5, 8000), (3, 6, 7600), (3, 7, 6400), (3, 8, 4880), (3, 9, 3280), (3, 10, 2000),
   (4, 0, 2375), (4, 1, 3895), (4, 2, 5795), (4, 3, 7600), (4, 4, 9025), (4, 5, 9500), (4, 6, 9025), (4, 7, 7600), (4, 8, 5795), (4, 9, 3895), (4, 10, 2375),
   (5, 0, 2500), (5, 1, 4100), (5, 2, 6100), (5, 3, 8000), (5, 4, 9500), (5, 5, 10000), (5, 6, 9500), (5, 7, 8000), (5, 8, 6100), (5, 9, 4100), (5, 10, 2500),
   (6, 0, 2375), (6, 1, 3895), (6, 2, 5795), (6, 3, 7600), (6, 4, 9025), (6, 5, 9500), (6, 6, 9025), (6, 7, 7600), (6, 8, 5795), (6, 9, 3895), (6, 10, 2375),
   (7, 0, 2000), (7, 1, 3280), (7, 2, 4880), (7, 3, 6400), (7, 4, 7600), (7, 5, 8000), (7, 6, 7600), (7, 7, 6400), (7, 8, 4880), (7, 9, 3280), (7, 10, 2000),
   (8, 0, 1525), (8, 1, 2501), (8, 2, 3721), (8, 3, 4880), (8, 4, 5795), (8, 5, 6100), (8, 6, 5795), (8, 7, 4880), (8, 8, 3721), (8, 9, 2501), (8, 10, 1525),
   (9, 0, 1025), (9, 1, 1681), (9, 2, 2501), (9, 3, 3280), (9, 4, 3895), (9, 5, 4100), (9, 6, 3895), (9, 7, 3280), (9, 8, 2501), (9, 9, 1681), (9, 10, 1025),
   (10, 0, 625), (10, 1, 1025), (10, 2, 1525), (10, 3, 2000), (10, 4, 2375), (10, 5, 2500), (10, 6, 2375), (10, 7, 2000), (10, 8, 1525), (10, 9, 1025), (10, 10, 625)]

/-- Modelled from the spec (§4.3 step 5, not present in src): 11×11
sigma-3 Gaussian blur with reflected borders and rounding. -/
def specBlur11 (img : Img Nat) : Img Nat :=
  ⟨img.h, img.w, fun y x =>
    (kernel11.foldl (fun acc e =>
      acc + e.2.2 * img.px (reflect101 img.h ((y : Int) + e.1 - 5))
                           (reflect101 img.w ((x : Int) + e.2.1 - 5))) 0
      + 247808) / 495616⟩

/-- Modelled from the spec (§4.3 confidence path, not present in src):
the full five-stage confidence-map refinement - scale to 8-bit,
threshold at 128, 3×3 erosion, 5×5 close, 11×11 sigma-3 blur. -/
def specConfidenceRefine (cm : Img ℚ) : Img Nat :=
  specBlur11 (specClose5 (specErode se3 (specThreshold128 (specScale8 cm))))

/-! ### Pipeline Driver (src/main.py lines 79-157)

One call of `update_frame` is one tick.  Its external inputs are the
capture result (`self.cap.read()`) and the outcome of the segmentation
call (the result, or an exception). -/

/-- A buffer handed to the display surface: RGBA when a mask was
applied, opaque RGB otherwise. -/
inductive Buffer where
  | rgba (img : Img RGBA)
  | rgb (img : Img RGB)

/-- The outcome of `self.segmenter.segment_for_video`: a result carrying
a category mask, or a raised exception. -/
inductive SegOutcome where
  | ok (category_mask : Img ℚ)
  | err

/-- The driver's cross-tick mutable state: the `use_mediapipe` flag and
the last displayed buffer `current_frame`. -/
structure DriverState where
  use_mediapipe : Bool
  current_frame : Option Buffer

/-- What one `update_frame` call did: the state it left behind, whether
the segmenter was invoked, and whether a repaint (`self.update()`) was
requested. -/
structure TickResult where
  state : DriverState
  segmenterCalled : Bool
  emitted : Bool

/-- Embedding of one `update_frame` tick (src/main.py lines 79-157).
If capture fails, nothing happens.  Otherwise the frame is normalized;
when `use_mediapipe` is set, the segmenter runs: on success the masked
RGBA buffer is stored, on exception `use_mediapipe` is cleared and the
same tick falls through to the no-mask path.  When `use_mediapipe` is
clear, the no-mask RGB buffer is stored. -/
def updateFrame (size : Nat) (s : DriverState) (capture : Option (Img BGR))
    (seg : SegOutcome) : TickResult :=
  match capture with
  | none => ⟨s, false, false⟩
  | some raw =>
    let frame := normalize raw size
    if s.use_mediapipe then
      match seg with
      | .ok cm =>
        ⟨⟨true, some (.rgba (composeWithMask frame (refineMask cm)))⟩, true, true⟩
      | .err =>
        ⟨⟨false, some (.rgb (composeNoMask frame))⟩, true, true⟩
    else
      ⟨⟨s.use_mediapipe, some (.rgb (composeNoMask frame))⟩, false, true⟩

/-- A run of consecutive ticks: fold `updateFrame` over a list of
per-tick inputs, returning the final state and the per-tick log of
whether the segmenter was invoked. -/
def runTicks (size : Nat) (s : DriverState) :
    List (Option (Img BGR) × SegOutcome) → DriverState × List Bool
  | [] => (s, [])
  | inp :: rest =>
    let r := updateFrame size s inp.1 inp.2
    let rec' := runTicks size r.state rest
    (rec'.1, r.segmenterCalled :: rec'.2)

/-! ### Timestamps (src/main.py line 103)

Each segmentation call passes `timestamp_ms = int(time.time() * 1000)`.
The wall clock reading `time.time()` (seconds) is an external input,
modelled as a rational per call; `int()` truncates toward zero. -/

/-- Python's `int()` on a rational: truncation toward zero. -/
def pyInt (q : ℚ) : ℤ :=
  if 0 ≤ q then ⌊q⌋ else -⌊-q⌋

/-- Embedding of `int(time.time() * 1000)` (src/main.py line 103), where
`t` is the wall-clock reading in seconds at the moment of the call.  The
driver applies no adjustment to enforce monotonicity. -/
def timestampMs (t : ℚ) : ℤ :=
  pyInt (t * 1000)

/-! ### Startup and shutdown resource handling

`__init__` (src/main.py lines 32-70) constructs the segmenter when
MediaPipe is importable, the model file exists, and construction does
not throw; it then probes camera indices 0, 1, 2, keeping the first
device that both opens and yields a frame and releasing each opened
device whose read failed.  If no device qualifies, the process exits via
`sys.exit(1)`.  The only other exit path is the window close, whose
`closeEvent` (lines 185-190) closes the segmenter if it exists and
releases the selected capture device. -/

/-- The environment `__init__` runs in: whether MediaPipe imported,
whether the model file exists, whether segmenter construction succeeds,
and for each probed camera index whether it opens and whether its first
read succeeds. -/
structure StartupEnv where
  hasMediapipe : Bool
  modelExists : Bool
  ctorOk : Bool
  devices : List (Bool × Bool)

/-- Whether `self.segmenter` is constructed (src/main.py lines 32-41):
MediaPipe present, model file present, and the constructor returned. -/
def segmenterConstructed (e : StartupEnv) : Bool :=
  e.hasMediapipe && e.modelExists && e.ctorOk

/-- Embedding of the camera probe loop (src/main.py lines 56-66),
scanning devices from index `i`: returns the selected index (if any),
the indices released during the probe (opened but failed to read), and
the indices of all devices that were opened. -/
def probeAux (i : Nat) : List (Bool × Bool) → Option Nat × List Nat × List Nat
  | [] => (none, [], [])
  | d :: rest =>
    if d.1 then
      if d.2 then (some i, [], [i])
      else
        let r := probeAux (i + 1) rest
        (r.1, i :: r.2.1, i :: r.2.2)
    else probeAux (i + 1) rest

/-- Which exit path the process took: `sys.exit(1)` when no working
camera was found (src/main.py lines 68-70), or the window close. -/
inductive ExitPath where
  | initFailure
  | windowClose
deriving DecidableEq

/-- The resource events of one whole process run: the exit path taken,
how many times `segmenter.close()` ran, how many times each capture
device's `release()` ran, and which devices were opened. -/
structure ResourceTrace where
  exitPath : ExitPath
  segmenterCloses : Nat
  releases : Nat → Nat
  opened : List Nat

/-- Embedding of the process's resource lifecycle: run `__init__`'s
probe; with no working camera, exit via `sys.exit(1)` (the segmenter is
not closed on this path); otherwise run until the window closes, where
`closeEvent` closes the segmenter if constructed and releases the
selected device. -/
def runProcess (e : StartupEnv) : ResourceTrace :=
  let p := probeAux 0 e.devices
  match p.1 with
  | none =>
    ⟨.initFailure, 0, fun i => p.2.1.count i, p.2.2⟩
  | some k =>
    ⟨.windowClose, if segmenterConstructed e then 1 else 0,
      fun i => p.2.1.count i + (if i = k then 1 else 0), p.2.2⟩

/-! ### Concrete inputs used to instantiate the theorems -/

/-- A 1×1 category/confidence map whose value is 1 everywhere. -/
def uniOne : Img ℚ := ⟨1, 1, fun _ _ => 1⟩

/-- A 1×1 category/confidence map whose value is 0 everywhere. -/
def uniZero : Img ℚ := ⟨1, 1, fun _ _ => 0⟩

/-- A 1×1 BGR frame with blue 10, green 20, red 100. -/
def exFrame : Img BGR := ⟨1, 1, fun _ _ => ⟨10, 20, 100⟩⟩

/-- A 1×1 all-transparent (all-0) alpha mask. -/
def exMask0 : Img Nat := ⟨1, 1, fun _ _ => 0⟩

/-- A 1×1 all-opaque (all-255) alpha mask. -/
def exMask255 : Img Nat := ⟨1, 1, fun _ _ => 255⟩

/-- A 640×480 BGR test frame. -/
def ex640 : Img BGR := ⟨480, 640, fun y x => ⟨y % 256, x % 256, (y + x) % 256⟩⟩

/-- A startup environment whose segmenter constructs but in which no
probed camera yields a frame: index 1 opens but its read fails. -/
def envNoCamera : StartupEnv :=
  ⟨true, true, true, [(false, false), (true, false), (false, false)]⟩

/-- A startup environment whose segmenter constructs and whose camera at
index 1 works (index 0 opens but fails to read). -/
def envNormal : StartupEnv :=
  ⟨true, true, true, [(true, false), (true, true), (false, false)]⟩

/-- A driver state with background removal enabled and nothing
displayed yet. -/
def enabledState : DriverState := ⟨true, none⟩

/-! ### Helper lemmas -/

/-- Thresholding a uniform image whose value clears the midpoint yields
a uniform 255 image. -/
lemma specThreshold128_const255 (m : Img Nat) (c : Nat) (hc : 128 ≤ c)
    (h : ∀ a b, m.px a b = c) : ∀ y x, (specThreshold128 m).px y x = 255 := by
  intro y x; simp [specThreshold128, h, hc]

/-- Eroding a uniform 8-bit image with the 3×3 element preserves it. -/
lemma specErode_se3_const (m : Img Nat) (c : Nat) (hc : c ≤ 255)
    (h : ∀ a b, m.px a b = c) : ∀ y x, (specErode se3 m).px y x = c := by
  intro y x; simp [specErode, se3, List.foldl, h]; omega

/-- Dilating a uniform image with the 5×5 element preserves it. -/
lemma specDilate_se5_const (m : Img Nat) (c : Nat)
    (h : ∀ a b, m.px a b = c) : ∀ y x, (specDilate se5 m).px y x = c := by
  intro y x; simp [specDilate, se5, List.foldl, h]

/-- Eroding a uniform 8-bit image with the 5×5 element preserves it. -/
lemma specErode_se5_const (m : Img Nat) (c : Nat) (hc : c ≤ 255)
    (h : ∀ a b, m.px a b = c) : ∀ y x, (specErode se5 m).px y x = c := by
  intro y x; simp [specErode, se5, List.foldl, h]; omega

set_option maxRecDepth 4000 in
/-- The spec's 11×11 blur preserves uniform images: the kernel weights
total 495616 and the rounding term is half of that. -/
lemma specBlur11_const (m : Img Nat) (c : Nat)
    (h : ∀ a b, m.px a b = c) : ∀ y x, (specBlur11 m).px y x = c := by
  intro y x; simp only [specBlur11, kernel11, List.foldl, h]; omega

/-- The code's 5×5 blur preserves uniform images: the kernel weights
total 256 and the rounding term is 128. -/
lemma gaussianBlur5_const (m : Img Nat) (c : Nat)
    (h : ∀ a b, m.px a b = c) : ∀ y x, (gaussianBlur5 m).px y x = c := by
  intro y x; simp only [gaussianBlur5, kernel5, List.foldl, h]; omega

/-- Monotone bound for an additive fold: if each summand is dominated
elementwise and the seeds compare, the folds compare. -/
lemma foldl_add_le {β : Type} (l : List β) (f g : β → Nat) (i1 i2 : Nat)
    (h0 : i1 ≤ i2) (h : ∀ e ∈ l, f e ≤ g e) :
    l.foldl (fun a e => a + f e) i1 ≤ l.foldl (fun a e => a + g e) i2 := by
  induction l generalizing i1 i2 with
  | nil => simpa using h0
  | cons d rest ih =>
    simp only [List.foldl_cons]
    exact ih _ _ (Nat.add_le_add h0 (h d (by simp))) fun e he => h e (by simp [he])

/-- The code's 5×5 blur keeps 8-bit range: inputs bounded by 255 give
outputs bounded by 255. -/
lemma gaussianBlur5_le (m : Img Nat) (h : ∀ a b, m.px a b ≤ 255) :
    ∀ y x, (gaussianBlur5 m).px y x ≤ 255 := by
  intro y x
  have hb : kernel5.foldl (fun acc e =>
      acc + e.2.2 * m.px (reflect101 m.h ((y : Int) + e.1 - 2))
                         (reflect101 m.w ((x : Int) + e.2.1 - 2))) 0 ≤
      kernel5.foldl (fun acc e => acc + e.2.2 * 255) 0 := by
    refine foldl_add_le _ _ _ 0 0 le_rfl fun e _ => ?_
    exact Nat.mul_le_mul_left _ (h _ _)
  have hv : kernel5.foldl (fun acc (e : Nat × Nat × Nat) => acc + e.2.2 * 255) 0 = 65280 := by
    simp [kernel5, List.foldl]
  rw [hv] at hb
  show (kernel5.foldl _ 0 + 128) / 256 ≤ 255
  omega

/-- A tick entered with background removal disabled leaves the flag
clear, never calls the segmenter, and either leaves the displayed
buffer alone (capture miss) or stores the no-mask RGB buffer. -/
lemma updateFrame_disabled (size : Nat) (s : DriverState)
    (cap : Option (Img BGR)) (seg : SegOutcome) (h : s.use_mediapipe = false) :
    (updateFrame size s cap seg).state.use_mediapipe = false ∧
    (updateFrame size s cap seg).segmenterCalled = false := by
  cases cap <;> simp [updateFrame, h]

/-- Along any run started with background removal disabled, the flag
stays clear and the segmenter-call log is all-false. -/
lemma runTicks_disabled (size : Nat) (l : List (Option (Img BGR) × SegOutcome)) :
    ∀ s : DriverState, s.use_mediapipe = false →
    (runTicks size s l).1.use_mediapipe = false ∧
    ∀ b ∈ (runTicks size s l).2, b = false := by
  induction l with
  | nil => intro s h; simpa [runTicks] using h
  | cons inp rest ih =>
    intro s h
    have hd := updateFrame_disabled size s inp.1 inp.2 h
    have ht := ih _ hd.1
    refine ⟨by simpa [runTicks] using ht.1, ?_⟩
    intro b hb
    simp only [runTicks, List.mem_cons] at hb
    rcases hb with hb | hb
    · rw [hb]; exact hd.2
    · exact ht.2 b hb

/-- Unfolding of the probe loop at a device that opens and reads. -/
lemma probeAux_cons_openread (i : Nat) (d : Bool × Bool) (rest : List (Bool × Bool))
    (hop : d.1 = true) (hrd : d.2 = true) :
    probeAux i (d :: rest) = (some i, [], [i]) := by
  simp [probeAux, hop, hrd]

/-- Unfolding of the probe loop at a device that opens but fails to
read: the device is released and the scan continues. -/
lemma probeAux_cons_opennoread (i : Nat) (d : Bool × Bool) (rest : List (Bool × Bool))
    (hop : d.1 = true) (hrd : d.2 = false) :
    probeAux i (d :: rest) =
      ((probeAux (i + 1) rest).1, i :: (probeAux (i + 1) rest).2.1,
        i :: (probeAux (i + 1) rest).2.2) := by
  simp [probeAux, hop, hrd]

/-- Unfolding of the probe loop at a device that does not open. -/
lemma probeAux_cons_noopen (i : Nat) (d : Bool × Bool) (rest : List (Bool × Bool))
    (hop : d.1 = false) :
    probeAux i (d :: rest) = probeAux (i + 1) rest := by
  simp [probeAux, hop]

/-- Structural facts about the probe loop: all recorded indices are at
least the starting index, and each opened device is accounted for
exactly once - either released during the probe or selected. -/
lemma probeAux_spec (l : List (Bool × Bool)) : ∀ i : Nat,
    (∀ j ∈ (probeAux i l).2.1, i ≤ j) ∧
    (∀ j ∈ (probeAux i l).2.2, i ≤ j) ∧
    (∀ k : Nat, (probeAux i l).1 = some k → i ≤ k) ∧
    (∀ j ∈ (probeAux i l).2.2,
      (probeAux i l).2.1.count j +
        (if (probeAux i l).1 = some j then 1 else 0) = 1) := by
  induction l with
  | nil => intro i; simp [probeAux]
  | cons d rest ih =>
    intro i
    have hr := ih (i + 1)
    rcases hop : d.1 with _ | _
    · rw [probeAux_cons_noopen i d rest hop]
      refine ⟨fun j hj => ?_, fun j hj => ?_, fun k hk => ?_, fun j hj => hr.2.2.2 j hj⟩
      · have := hr.1 j hj; omega
      · have := hr.2.1 j hj; omega
      · have := hr.2.2.1 k hk; omega
    · rcases hrd : d.2 with _ | _
      · rw [probeAux_cons_opennoread i d rest hop hrd]
        refine ⟨fun j hj => ?_, fun j hj => ?_, fun k hk => ?_, fun j hj => ?_⟩
        · rcases List.mem_cons.mp hj with hj | hj
          · omega
          · have := hr.1 j hj; omega
        · rcases List.mem_cons.mp hj with hj | hj
          · omega
          · have := hr.2.1 j hj; omega
        · have := hr.2.2.1 k hk; omega
        · rcases List.mem_cons.mp hj with hj | hj
          · subst hj
            have hnot : j ∉ (probeAux (j + 1) rest).2.1 := fun hmem => by
              have := hr.1 j hmem; omega
            have hsel : ¬ ((probeAux (j + 1) rest).1 = some j) := fun hs => by
              have := hr.2.2.1 j hs; omega
            simp [List.count_cons, List.count_eq_zero.mpr hnot, hsel]
          · have hcnt := hr.2.2.2 j hj
            have hij : ¬ (i = j) := by have := hr.2.1 j hj; omega
            simp only [List.count_cons, hij]
            simp only [if_false, beq_iff_eq]
            by_cases hq : (probeAux (i + 1) rest).1 = some j <;>
              simp [hq, hij] at hcnt ⊢ <;> omega
      · rw [probeAux_cons_openread i d rest hop hrd]
        refine ⟨by simp, by simp, fun k hk => by simp_all, fun j hj => ?_⟩
        simp at hj
        simp [hj]

/-! ### Claim theorems -/

/-- C1 (counterexample): the Compositor does not premultiply.  On a 1×1
frame with red channel 100 and an all-0 mask, the composed red channel
is not `round(100 * 0/255)` and in particular is not 0. -/
theorem compositor_not_premultiplied_cex :
    ((composeWithMask exFrame exMask0).px 0 0).r ≠
      specPremultiply ((exFrame.px 0 0).r) (exMask0.px 0 0) ∧
    ((composeWithMask exFrame exMask0).px 0 0).r ≠ 0 := by
  decide

/-- C1 (amended): when a mask is present the Compositor passes every
color channel through unchanged - no premultiplication occurs - and
sets the alpha channel to the mask value; in particular with an all-0
mask the output colors equal the originals rather than 0. -/
theorem compositor_color_passthrough (frame : Img BGR) (mask : Img Nat) (y x : Nat) :
    ((composeWithMask frame mask).px y x).r = (frame.px y x).r ∧
    ((composeWithMask frame mask).px y x).g = (frame.px y x).g ∧
    ((composeWithMask frame mask).px y x).b = (frame.px y x).b ∧
    ((composeWithMask frame mask).px y x).a = mask.px y x := by
  simp [composeWithMask, setAlpha, cvtBGR2RGBA]

/-- C2 (counterexample): the code's refinement and the claimed
five-stage confidence pipeline disagree on the uniform all-1 map: the
spec pipeline yields 255 where the code yields 0. -/
theorem refiner_confidence_pipeline_cex :
    (specConfidenceRefine uniOne).px 0 0 = 255 ∧ (refineMask uniOne).px 0 0 = 0 := by
  constructor
  · have h1 : ∀ a b, (specScale8 uniOne).px a b = 255 := by
      intro a b; norm_num [specScale8, uniOne]; decide
    have h2 := specThreshold128_const255 _ _ (by norm_num) h1
    have h3 := specErode_se3_const _ _ (by norm_num) h2
    have h4 := specDilate_se5_const _ _ h3
    have h5 : ∀ y x,
        (specClose5 (specErode se3 (specThreshold128 (specScale8 uniOne)))).px y x = 255 :=
      specErode_se5_const _ _ (by norm_num) h4
    exact specBlur11_const _ _ h5 0 0
  · have h1 : ∀ a b, (binarizeLE uniOne).px a b = 0 := by
      intro a b; norm_num [binarizeLE, uniOne]
    exact gaussianBlur5_const _ _ h1 0 0

/-- C2 (amended): the Mask Refiner supports only the CategoryMap
variant - the segmenter is configured with `output_category_mask=True`;
it binarizes the map (each pixel becomes 255 or 0) and blurs, and its
output always stays in the 8-bit alpha range. -/
theorem refiner_category_only (cm : Img ℚ) (y x : Nat) :
    outputCategoryMask = true ∧
    ((binarizeLE cm).px y x = 255 ∨ (binarizeLE cm).px y x = 0) ∧
    (refineMask cm).px y x ≤ 255 := by
  refine ⟨rfl, ?_, ?_⟩
  · by_cases h : cm.px y x ≤ 1 / 2
    · left; simp only [binarizeLE]; rw [if_pos h]
    · right; simp only [binarizeLE]; rw [if_neg h]
  · refine gaussianBlur5_le _ (fun a b => ?_) y x
    simp only [binarizeLE]
    split <;> omega

/-- C3: from an enabled state, one inference error clears
`use_mediapipe`; over any subsequent run the flag stays clear and the
segmenter is never called again; the flag is never turned on by a tick,
is only cleared by an error on a tick with a captured frame, and once
disabled every tick either keeps the displayed buffer (capture miss) or
stores the no-mask RGB buffer. -/
theorem driver_single_irreversible_disable (size : Nat) (s : DriverState)
    (raw : Img BGR) (inputs : List (Option (Img BGR) × SegOutcome))
    (h : s.use_mediapipe = true) :
    (updateFrame size s (some raw) SegOutcome.err).state.use_mediapipe = false ∧
    (runTicks size (updateFrame size s (some raw) SegOutcome.err).state inputs).1.use_mediapipe = false ∧
    (∀ b ∈ (runTicks size (updateFrame size s (some raw) SegOutcome.err).state inputs).2, b = false) ∧
    (∀ (s' : DriverState) (cap : Option (Img BGR)) (seg : SegOutcome),
      ((updateFrame size s' cap seg).state.use_mediapipe = true → s'.use_mediapipe = true) ∧
      (s'.use_mediapipe = true → (updateFrame size s' cap seg).state.use_mediapipe = false →
        cap ≠ none ∧ seg = SegOutcome.err) ∧
      (s'.use_mediapipe = false →
        (updateFrame size s' cap seg).state.current_frame = s'.current_frame ∨
        ∃ raw', cap = some raw' ∧ (updateFrame size s' cap seg).state.current_frame =
          some (Buffer.rgb (composeNoMask (normalize raw' size))))) := by
  have hdis : (updateFrame size s (some raw) SegOutcome.err).state.use_mediapipe = false := by
    simp [updateFrame, h]
  have hrun := runTicks_disabled size inputs _ hdis
  refine ⟨hdis, hrun.1, hrun.2, ?_⟩
  intro s' cap seg
  refine ⟨?_, ?_, ?_⟩
  · intro hnew
    cases cap with
    | none => simpa [updateFrame] using hnew
    | some raw' =>
      by_cases hs : s'.use_mediapipe
      · exact hs
      · simp [updateFrame, hs] at hnew
  · intro hs hnew
    cases cap with
    | none => simp [updateFrame] at hnew; rw [hnew] at hs; exact absurd hs (by simp)
    | some raw' =>
      cases seg with
      | ok cm => simp [updateFrame, hs] at hnew
      | err => exact ⟨by simp, rfl⟩
  · intro hs
    cases cap with
    | none => left; rfl
    | some raw' =>
      right
      exact ⟨raw', rfl, by simp [updateFrame, hs]⟩

/-- C3 (witness): instantiation of the disable theorem at a concrete
enabled state, frame and follow-up input. -/
theorem driver_single_irreversible_disable_witness :
    (updateFrame 4 enabledState (some exFrame) SegOutcome.err).state.use_mediapipe = false ∧
    (runTicks 4 (updateFrame 4 enabledState (some exFrame) SegOutcome.err).state
      [(some exFrame, SegOutcome.ok uniOne)]).1.use_mediapipe = false := by
  have h := driver_single_irreversible_disable 4 enabledState exFrame
    [(some exFrame, SegOutcome.ok uniOne)] rfl
  exact ⟨h.1, h.2.1⟩

/-- C4: the Frame Normalizer yields a square image of the configured
size for every input; the crop stage samples the mirrored frame at
origin `((H-S)/2, (W-S)/2)` with `S = min(H, W)`, and for a 640×480
input the crop is 480×480 at offsets `(0, 80)`. -/
theorem normalizer_square_center_crop (raw : Img BGR) (size : Nat) :
    (normalize raw size).h = size ∧ (normalize raw size).w = size ∧
    (∀ y x, (cropSquare (hflip raw)).px y x =
      (hflip raw).px ((raw.h - min raw.h raw.w) / 2 + y)
                     ((raw.w - min raw.h raw.w) / 2 + x)) ∧
    (raw.h = 480 → raw.w = 640 →
      (cropSquare (hflip raw)).h = 480 ∧ (cropSquare (hflip raw)).w = 480 ∧
      ∀ y x, (cropSquare (hflip raw)).px y x = (hflip raw).px (0 + y) (80 + x)) := by
  refine ⟨rfl, rfl, fun y x => rfl, fun hh hw => ?_⟩
  refine ⟨by simp [cropSquare, hflip, hh, hw], by simp [cropSquare, hflip, hh, hw], ?_⟩
  intro y x
  simp [cropSquare, hflip, hh, hw]

/-- C4 (witness): the normalizer facts at a concrete 640×480 frame and
output size 300. -/
theorem normalizer_square_center_crop_witness :
    (normalize ex640 300).h = 300 ∧ (normalize ex640 300).w = 300 ∧
    (cropSquare (hflip ex640)).h = 480 ∧ (cropSquare (hflip ex640)).w = 480 ∧
    (cropSquare (hflip ex640)).px 0 0 = (hflip ex640).px 0 80 := by
  have h := normalizer_square_center_crop ex640 300
  have h4 := h.2.2.2 rfl rfl
  refine ⟨h.1, h.2.1, h4.1, h4.2.1, ?_⟩
  have := h4.2.2 0 0
  simpa using this

/-- C5 (counterexample): in an environment where the segmenter
constructs but no probed camera yields a frame, the process exits via
the initialization-failure path with the segmenter closed zero times,
even though the opened device was released. -/
theorem startup_failure_leaks_segmenter_cex :
    segmenterConstructed envNoCamera = true ∧
    (runProcess envNoCamera).exitPath = ExitPath.initFailure ∧
    (runProcess envNoCamera).segmenterCloses = 0 ∧
    (runProcess envNoCamera).opened = [1] ∧
    (runProcess envNoCamera).releases 1 = 1 := by
  refine ⟨rfl, ?_, ?_, ?_, ?_⟩ <;>
    norm_num [runProcess, envNoCamera, probeAux]

/-- C5 (amended): every opened capture device is released exactly once
on both exit paths, but the segmenter is closed exactly once only on
the window-close path - on the initialization-failure exit an
already-constructed segmenter is closed zero times. -/
theorem resource_release_per_path (e : StartupEnv) :
    ((runProcess e).segmenterCloses =
      if (runProcess e).exitPath = ExitPath.windowClose ∧ segmenterConstructed e = true
      then 1 else 0) ∧
    (∀ j ∈ (runProcess e).opened, (runProcess e).releases j = 1) := by
  have hp := probeAux_spec e.devices 0
  cases hsel : (probeAux 0 e.devices).1 with
  | none =>
    constructor
    · simp [runProcess, hsel]
    · intro j hj
      simp only [runProcess, hsel] at hj ⊢
      have := hp.2.2.2 j hj
      rw [hsel] at this
      simpa using this
  | some k =>
    constructor
    · simp [runProcess, hsel]
    · intro j hj
      simp only [runProcess, hsel] at hj ⊢
      have := hp.2.2.2 j hj
      rw [hsel] at this
      by_cases hk : j = k
      · subst hk; simpa using this
      · have hne : ¬ (some k = some j) := by simp [Ne.symm hk]
        rw [if_neg hne] at this
        simpa [hk] using this

/-- C5 (witness): the amended release accounting at a concrete normal
run - segmenter closed once, both opened devices released once. -/
theorem resource_release_per_path_witness :
    (runProcess envNormal).segmenterCloses = 1 ∧
    (runProcess envNormal).releases 0 = 1 ∧
    (runProcess envNormal).releases 1 = 1 := by
  have h := resource_release_per_path envNormal
  have hpath : (runProcess envNormal).exitPath = ExitPath.windowClose := by
    norm_num [runProcess, envNormal, probeAux]
  have hopen : (runProcess envNormal).opened = [0, 1] := by
    norm_num [runProcess, envNormal, probeAux]
  refine ⟨?_, ?_, ?_⟩
  · rw [h.1, if_pos ⟨hpath, rfl⟩]
  · exact h.2 0 (by rw [hopen]; simp)
  · exact h.2 1 (by rw [hopen]; simp)

/-- C6 (counterexample): two successive calls at strictly increasing
wall-clock readings 1 s and 1.0005 s receive the same
`timestamp_ms = 1000`: the driver does not enforce strict increase. -/
theorem timestamp_strictness_cex :
    (1 : ℚ) < 2001 / 2000 ∧ timestampMs 1 = 1000 ∧ timestampMs (2001 / 2000) = 1000 := by
  refine ⟨by norm_num, by norm_num [timestampMs, pyInt], by norm_num [timestampMs, pyInt]⟩

/-- C6 (amended): the timestamp passed to the runtime is non-decreasing
whenever the wall clock is non-decreasing, and is strictly greater on
the later call whenever the clock advanced by at least one
millisecond; strictness in general is not enforced by the driver. -/
theorem timestamp_monotone (t1 t2 : ℚ) (h0 : 0 ≤ t1) (h12 : t1 ≤ t2) :
    timestampMs t1 ≤ timestampMs t2 ∧
    (t1 + 1 / 1000 ≤ t2 → timestampMs t1 < timestampMs t2) := by
  have h0' : (0 : ℚ) ≤ t1 * 1000 := by positivity
  have h0'' : (0 : ℚ) ≤ t2 * 1000 := by nlinarith
  constructor
  · simp only [timestampMs, pyInt, if_pos h0', if_pos h0'']
    exact Int.floor_le_floor (by nlinarith)
  · intro hstep
    simp only [timestampMs, pyInt, if_pos h0', if_pos h0'']
    have h1 : t1 * 1000 + 1 ≤ t2 * 1000 := by nlinarith
    have h2 : ⌊t1 * 1000⌋ + 1 ≤ ⌊t2 * 1000⌋ := by
      have := Int.floor_le_floor h1
      rwa [Int.floor_add_one] at this
    omega

/-- C6 (witness): the amended monotonicity at clock readings 0 s and
1 s. -/
theorem timestamp_monotone_witness :
    timestampMs 0 ≤ timestampMs 1 ∧ timestampMs 0 < timestampMs 1 := by
  have h := timestamp_monotone 0 1 (by norm_num) (by norm_num)
  exact ⟨h.1, h.2 (by norm_num)⟩

/-- C7: every alpha value of the composed RGBA buffer equals the
corresponding refined mask value exactly, and wherever the mask is 255
the output color channels equal the original frame's channels. -/
theorem compositor_alpha_exact (frame : Img BGR) (mask : Img Nat) (y x : Nat) :
    ((composeWithMask frame mask).px y x).a = mask.px y x ∧
    (mask.px y x = 255 →
      ((composeWithMask frame mask).px y x).r = (frame.px y x).r ∧
      ((composeWithMask frame mask).px y x).g = (frame.px y x).g ∧
      ((composeWithMask frame mask).px y x).b = (frame.px y x).b) := by
  refine ⟨rfl, fun _ => ⟨rfl, rfl, rfl⟩⟩

/-- C7 (witness): the alpha and full-opacity facts at a concrete frame
and an all-255 mask. -/
theorem compositor_alpha_exact_witness :
    ((composeWithMask exFrame exMask255).px 0 0).a = exMask255.px 0 0 ∧
    ((composeWithMask exFrame exMask255).px 0 0).r = (exFrame.px 0 0).r := by
  refine ⟨(compositor_alpha_exact exFrame exMask255 0 0).1,
    (((compositor_alpha_exact exFrame exMask255 0 0).2 (by decide)).1)⟩

/-- C8: a tick whose capture read fails is skipped entirely - the state
(including the displayed buffer) is unchanged, the segmenter is not
called, and no repaint is requested. -/
theorem capture_miss_skips_tick (size : Nat) (s : DriverState) (seg : SegOutcome) :
    updateFrame size s none seg = ⟨s, false, false⟩ := rfl

/-- C9: in the category refine path, before the Gaussian blur, every
pixel with category value at most 0.5 (integer class 0) maps to alpha
255 and every larger value maps to 0; consequently a uniform class-0
map refines to a uniform 255 mask and a uniform class-1 map to a
uniform 0 mask. -/
theorem category_polarity_class0 (cm : Img ℚ) :
    (∀ y x, cm.px y x ≤ 1 / 2 → (binarizeLE cm).px y x = 255) ∧
    (∀ y x, 1 / 2 < cm.px y x → (binarizeLE cm).px y x = 0) ∧
    ((∀ y x, cm.px y x = 0) → ∀ y x, (refineMask cm).px y x = 255) ∧
    ((∀ y x, cm.px y x = 1) → ∀ y x, (refineMask cm).px y x = 0) := by
  refine ⟨fun y x h => by simp only [binarizeLE]; rw [if_pos h],
    fun y x h => by simp only [binarizeLE]; rw [if_neg (not_le.mpr h)], ?_, ?_⟩
  · intro h
    refine gaussianBlur5_const _ 255 (fun a b => ?_)
    simp only [binarizeLE]
    rw [if_pos (by rw [h a b]; norm_num)]
  · intro h
    refine gaussianBlur5_const _ 0 (fun a b => ?_)
    simp only [binarizeLE]
    rw [if_neg (by rw [h a b]; norm_num)]

/-- C9 (witness): the polarity facts at the uniform class-0 and class-1
maps. -/
theorem category_polarity_class0_witness :
    (binarizeLE uniZero).px 0 0 = 255 ∧ (refineMask uniZero).px 0 0 = 255 ∧
    (refineMask uniOne).px 0 0 = 0 := by
  refine ⟨(category_polarity_class0 uniZero).1 0 0 (by norm_num [uniZero]),
    (category_polarity_class0 uniZero).2.2.1 (fun y x => rfl) 0 0,
    (category_polarity_class0 uniOne).2.2.2 (fun y x => rfl) 0 0⟩

/-- C10: a tick on which the segmentation call raises still emits a
buffer - the handler clears `use_mediapipe` and the same tick falls
through to the no-mask path, storing the opaque RGB buffer of the
normalized frame and requesting a repaint. -/
theorem inference_error_tick_emits (size : Nat) (s : DriverState) (raw : Img BGR)
    (h : s.use_mediapipe = true) :
    updateFrame size s (some raw) SegOutcome.err =
      ⟨⟨false, some (Buffer.rgb (composeNoMask (normalize raw size)))⟩, true, true⟩ := by
  simp [updateFrame, h]

/-- C10 (witness): the error-tick behavior at a concrete enabled state
and frame. -/
theorem inference_error_tick_emits_witness :
    updateFrame 4 enabledState (some exFrame) SegOutcome.err =
      ⟨⟨false, some (Buffer.rgb (composeNoMask (normalize exFrame 4)))⟩, true, true⟩ :=
  inference_error_tick_emits 4 enabledState exFrame rfl

end LoomLess
